import Mathlib

/-!
Shallow embedding of the sputnik EVM executor adapter
(src/evm-adapters/src/sputnik/evm.rs) from dapptools-rs.

The adapter (`Executor`) wraps an execution engine; the engine itself
(the sputnik crate: `StackExecutor`, `MemoryStackState`) is an external
collaborator whose source is not part of this repository, so its
interface operations are modelled from the spec where indicated.
Machine integers: addresses are 160-bit, balances/values are 256-bit,
gas is carried as a 256-bit value produced by a 64-bit gasometer; we
model them as `Nat` and apply `% 2^64` exactly where the code performs
the `as_u64` narrowing.
-/

namespace SputnikEvm

/-- 160-bit account identifier (ethers `Address`); modelled as `Nat`. -/
abbrev Address := Nat

/-- 256-bit unsigned word (ethers `U256`); modelled as `Nat`. -/
abbrev U256 := Nat

/-- Byte sequences (`Bytes` / `Vec<u8>`); modelled as lists of byte values. -/
abbrev Bytes := List Nat

/-- Subvariants of a successful exit (sputnik `ExitSucceed`). -/
inductive ExitSucceed where
  | Stopped
  | Returned
  | Suicided
deriving DecidableEq, Repr

/-- Subvariants of a revert exit (sputnik `ExitRevert`). -/
inductive ExitRevert where
  | Reverted
deriving DecidableEq, Repr

/-- Subvariants of an engine-level error exit (sputnik `ExitError`). -/
inductive ExitError where
  | StackUnderflow
  | StackOverflow
  | InvalidJump
  | InvalidRange
  | DesignatedInvalid
  | CallTooDeep
  | CreateCollision
  | CreateContractLimit
  | OutOfOffset
  | OutOfGas
  | OutOfFund
  | PCUnderflow
  | CreateEmpty
  | Other (msg : String)
deriving DecidableEq, Repr

/-- Subvariants of a fatal exit (sputnik `ExitFatal`). -/
inductive ExitFatal where
  | NotSupported
  | UnhandledInterrupt
  | CallErrorAsFatal (e : ExitError)
deriving DecidableEq, Repr

/-- Exit status of a transaction (sputnik `ExitReason`): tagged union of
success, revert, engine error and fatal error, each with a subvariant. -/
inductive ExitReason where
  | Succeed (s : ExitSucceed)
  | Revert (r : ExitRevert)
  | Error (e : ExitError)
  | Fatal (f : ExitFatal)
deriving DecidableEq, Repr

/-- Rendering of an exit status used when the adapter formats a status
into a diagnostic message (Rust `{:?}` debug formatting, abstracted). -/
def reprExit : ExitReason → String
  | .Succeed .Stopped => "Succeed(Stopped)"
  | .Succeed .Returned => "Succeed(Returned)"
  | .Succeed .Suicided => "Succeed(Suicided)"
  | .Revert .Reverted => "Revert(Reverted)"
  | .Error _ => "Error(..)"
  | .Fatal _ => "Fatal(..)"

/-- Address-creation scheme (sputnik `CreateScheme`); the adapter only
uses the `Legacy` (nonce-based) variant. -/
inductive CreateScheme where
  | Legacy (caller : Address)
  | Fixed (a : Address)
deriving DecidableEq, Repr

/-- One account of the state backend: balance, nonce, code and storage
(spec section 3: address maps to balance, nonce, code, storage). -/
structure Account where
  balance : U256
  nonce : Nat
  code : Bytes
  storage : U256 → U256

/-- The state backend: a total map from addresses to accounts
(absent accounts are the all-zero account). -/
structure Backend where
  accounts : Address → Account

/-- Modelled from the spec: the designated, privileged faucet account
(crate-level `FAUCET_ACCOUNT` constant, a fixed keccak-derived address;
the derivation itself is outside this repository, so the model fixes an
arbitrary concrete address). -/
def FAUCET_ACCOUNT : Address := 2 ^ 159 + 77

/-- Update a single account in the backend. -/
def Backend.update (b : Backend) (a : Address) (acc : Account) : Backend :=
  ⟨fun x => if x = a then acc else b.accounts x⟩

/-- Modelled from the spec: engine-side `withdraw` half of a value
transfer — fails with `OutOfFund` when the source balance is below the
withdrawn value, otherwise debits it (spec sections 4.4 and 7). -/
def Backend.withdraw (b : Backend) (a : Address) (v : U256) :
    Except ExitError Backend :=
  if (b.accounts a).balance < v then .error .OutOfFund
  else .ok (b.update a { b.accounts a with balance := (b.accounts a).balance - v })

/-- Modelled from the spec: engine-side `deposit` half of a value
transfer — credits the target balance (spec sections 4.4 and 7;
256-bit balances stay in range because every credit is matched by a
prior debit from the same supply). -/
def Backend.deposit (b : Backend) (a : Address) (v : U256) : Backend :=
  b.update a { b.accounts a with balance := (b.accounts a).balance + v }

/-- Modelled from the spec: the state backend value transfer used by
`set_balance` — withdraw from the source, then deposit to the target
(spec section 4.4: a value transfer, not a direct balance write). -/
def Backend.transfer (b : Backend) (source target : Address) (v : U256) :
    Except ExitError Backend :=
  match b.withdraw source v with
  | .error e => .error e
  | .ok b1 => .ok (b1.deposit target v)

/-- Modelled from the spec: engine-side `set_code` — directly replaces
the code of one account, touching nothing else (spec section 4.1:
state seeding, not a transaction). -/
def Backend.set_code (b : Backend) (a : Address) (code : Bytes) : Backend :=
  b.update a { b.accounts a with code := code }

/-- Modelled from the spec: the legacy (nonce-based) contract-address
derivation. The real engine computes the keccak hash of the rlp
encoding of the pair; the model keeps only what the claims need: a
fixed function of the caller and of the nonce of the caller. -/
def legacyCreateAddress (caller : Address) (nonce : Nat) : Address :=
  (caller * 2 ^ 64 + nonce + 1) % 2 ^ 160

/-- State of the execution engine as seen through the `SputnikExecutor`
interface: the backing account state, the accumulated log buffer
(engine-global, scoped only by explicit clears) and the remaining gas
of the gasometer. -/
structure EngineState where
  backend : Backend
  logBuffer : List String
  gasLeft : U256

/-- Modelled from the spec: outcome of running the EVM interpreter for
one create or call transaction — the interpreter itself (opcode
dispatch) is out of scope, so it is an arbitrary oracle producing the
exit status, the return data (calls only), the new account state, the
logs emitted during this transaction, and the remaining gas. -/
structure TransactOracle where
  createOutcome : EngineState → Address → U256 → Bytes → Nat →
    ExitReason × Backend × List String × U256
  callOutcome : EngineState → Address → Address → U256 → Bytes → Nat →
    (ExitReason × Bytes) × Backend × List String × U256

namespace EngineState

/-- Engine accessor `gas_left()`: remaining gas as a 256-bit value. -/
def gas_left (s : EngineState) : U256 := s.gasLeft

/-- Engine accessor `logs()`: the accumulated log buffer. -/
def logs (s : EngineState) : List String := s.logBuffer

/-- Engine operation `clear_logs()`: empties the log buffer. -/
def clear_logs (s : EngineState) : EngineState := { s with logBuffer := [] }

/-- Modelled from the spec: engine operation `create_address(scheme)` —
for the legacy scheme, derives the address from the caller and the
current nonce of the caller; the derivation reads the state as it is
now, before any transaction executes. -/
def create_address (s : EngineState) (scheme : CreateScheme) : Address :=
  match scheme with
  | .Legacy caller => legacyCreateAddress caller (s.backend.accounts caller).nonce
  | .Fixed a => a

/-- Modelled from the spec: engine operation `transact_create` — runs
the interpreter oracle and appends the logs it emitted to the
engine-global log buffer. -/
def transact_create (o : TransactOracle) (s : EngineState) (caller : Address)
    (value : U256) (init_code : Bytes) (gas_limit : Nat) :
    ExitReason × EngineState :=
  let r := o.createOutcome s caller value init_code gas_limit
  (r.1, ⟨r.2.1, s.logBuffer ++ r.2.2.1, r.2.2.2⟩)

/-- Modelled from the spec: engine operation `transact_call` — runs the
interpreter oracle and appends the logs it emitted to the
engine-global log buffer. -/
def transact_call (o : TransactOracle) (s : EngineState) (caller target : Address)
    (value : U256) (data : Bytes) (gas_limit : Nat) :
    (ExitReason × Bytes) × EngineState :=
  let r := o.callOutcome s caller target value data gas_limit
  (r.1, ⟨r.2.1, s.logBuffer ++ r.2.2.1, r.2.2.2⟩)

end EngineState

/-- The `as_u64` narrowing of a 256-bit value to 64 bits, applied by
the adapter to the computed gas. -/
def asU64 (n : Nat) : Nat := n % 2 ^ 64

/-- The executor adapter: owns the engine state plus the configured gas
limit (struct `Executor` in the source). -/
structure Executor where
  executor : EngineState
  gas_limit : Nat

namespace Executor

/-- `Evm::revert()`: the canonical revert status. -/
def revert : ExitReason := .Revert .Reverted

/-- `Evm::is_success`: the status is a `Succeed` variant
(`matches!(reason, ExitReason::Succeed(_))`). -/
def is_success : ExitReason → Bool
  | .Succeed _ => true
  | _ => false

/-- `Evm::is_fail`: the logical complement of `is_success`. -/
def is_fail (reason : ExitReason) : Bool := ! is_success reason

/-- `Evm::reset`: replaces the owned engine state wholesale. -/
def reset (e : Executor) (state : EngineState) : Executor :=
  { e with executor := state }

/-- `Evm::initialize_contracts`: for each (address, bytecode) entry,
sets the code of the account directly on the engine state. -/
def initialize_contracts (e : Executor) (contracts : List (Address × Bytes)) :
    Executor :=
  { e with executor :=
      { e.executor with backend :=
          contracts.foldl (fun b p => b.set_code p.1 p.2) e.executor.backend } }

/-- `Evm::set_balance`: transfers `balance` from the faucet account to
`address` on the engine state; the `.expect` on a failed transfer is a
fatal error, modelled as the `.error` branch carrying the panic
message. -/
def set_balance (e : Executor) (address : Address) (balance : U256) :
    Except String Executor :=
  match e.executor.backend.transfer FAUCET_ACCOUNT address balance with
  | .ok b => .ok { e with executor := { e.executor with backend := b } }
  | .error _ => .error "could not transfer funds"

/-- `Evm::state`: read-only view of the engine state. -/
def state (e : Executor) : EngineState := e.executor

/-- `Evm::deploy`: executes a Create transaction. Records gas before,
precomputes the legacy create address from the current nonce of the
sender, runs `transact_create`, drains then clears the log buffer,
computes the saturating net gas, and returns an error exactly when the
status classifies as failure. Returns the result together with the
adapter state after the call. -/
def deploy (o : TransactOracle) (e : Executor) (from_ : Address)
    (calldata : Bytes) (value : U256) :
    Except String (Address × ExitReason × Nat × List String) × Executor :=
  let gas_before := e.executor.gas_left
  let address := e.executor.create_address (CreateScheme.Legacy from_)
  let r := e.executor.transact_create o from_ value calldata e.gas_limit
  let status := r.1
  let logs := r.2.logs
  let s2 := r.2.clear_logs
  let gas_after := s2.gas_left
  let gas := (gas_before - gas_after) - 21000
  if is_fail status then
    (.error ("deployment reverted, reason: " ++ reprExit status),
     { e with executor := s2 })
  else
    (.ok (address, status, asU64 gas, logs), { e with executor := s2 })

/-- `Evm::call_raw`: executes a Call transaction. Records gas before,
runs `transact_call`, computes the saturating net gas, drains then
clears the log buffer, and always returns `Ok` with the (possibly
empty) return data, the status, the gas used and the logs. The
`is_static` flag is received but unused (`_is_static`). Returns the
result together with the adapter state after the call. -/
def call_raw (o : TransactOracle) (e : Executor) (from_ to_ : Address)
    (calldata : Bytes) (value : U256) ( _is_static : Bool) :
    Except String (Bytes × ExitReason × Nat × List String) × Executor :=
  let gas_before := e.executor.gas_left
  let r := e.executor.transact_call o from_ to_ value calldata e.gas_limit
  let status := r.1.1
  let retdata := r.1.2
  let gas_after := r.2.gas_left
  let gas := (gas_before - gas_after) - 21000
  let logs := r.2.logs
  let s2 := r.2.clear_logs
  (.ok (retdata, status, asU64 gas, logs), { e with executor := s2 })

end Executor

/-- One adapter-level transaction request: a Create (`deploy`) or a
Call (`call_raw`), with the arguments the caller supplies. -/
inductive EvmOp where
  | create (from_ : Address) (calldata : Bytes) (value : U256)
  | call (from_ to_ : Address) (calldata : Bytes) (value : U256) (st : Bool)

namespace Executor

/-- Runs one adapter operation and returns the pair of the logs handed
back to the caller (empty for a failed deploy, whose logs are drained
and dropped) and the adapter state after the operation. -/
def runOp (o : TransactOracle) (e : Executor) : EvmOp → List String × Executor
  | .create f cd v =>
    let r := e.deploy o f cd v
    ((match r.1 with | .ok x => x.2.2.2 | .error _ => []), r.2)
  | .call f t cd v st =>
    let r := e.call_raw o f t cd v st
    ((match r.1 with | .ok x => x.2.2.2 | .error _ => []), r.2)

/-- The logs the interpreter oracle emits during one operation run from
adapter state `e` (the per-transaction logs, as opposed to whatever
already sits in the engine-global buffer). -/
def opEmitted (o : TransactOracle) (e : Executor) : EvmOp → List String
  | .create f cd v => (o.createOutcome e.executor f v cd e.gas_limit).2.2.1
  | .call f t cd v _ => (o.callOutcome e.executor f t v cd e.gas_limit).2.2.1

/-- Exit status the engine reports for the Create transaction `deploy`
executes from adapter state `e`. -/
def deployStatus (o : TransactOracle) (e : Executor) (from_ : Address)
    (calldata : Bytes) (value : U256) : ExitReason :=
  (o.createOutcome e.executor from_ value calldata e.gas_limit).1

/-- Remaining gas the engine reports after the Create transaction
`deploy` executes from adapter state `e` (the `gas_after` reading). -/
def deployGasAfter (o : TransactOracle) (e : Executor) (from_ : Address)
    (calldata : Bytes) (value : U256) : U256 :=
  (o.createOutcome e.executor from_ value calldata e.gas_limit).2.2.2

/-- Exit status the engine reports for the Call transaction `call_raw`
executes from adapter state `e`. -/
def callStatus (o : TransactOracle) (e : Executor) (from_ to_ : Address)
    (calldata : Bytes) (value : U256) : ExitReason :=
  (o.callOutcome e.executor from_ to_ value calldata e.gas_limit).1.1

/-- Return data the engine reports for the Call transaction `call_raw`
executes from adapter state `e`. -/
def callRetdata (o : TransactOracle) (e : Executor) (from_ to_ : Address)
    (calldata : Bytes) (value : U256) : Bytes :=
  (o.callOutcome e.executor from_ to_ value calldata e.gas_limit).1.2

/-- Remaining gas the engine reports after the Call transaction
`call_raw` executes from adapter state `e` (the `gas_after` reading). -/
def callGasAfter (o : TransactOracle) (e : Executor) (from_ to_ : Address)
    (calldata : Bytes) (value : U256) : U256 :=
  (o.callOutcome e.executor from_ to_ value calldata e.gas_limit).2.2.2

/-- Logs the engine reports emitted during the Call transaction
`call_raw` executes from adapter state `e`. -/
def callEmitted (o : TransactOracle) (e : Executor) (from_ to_ : Address)
    (calldata : Bytes) (value : U256) : List String :=
  (o.callOutcome e.executor from_ to_ value calldata e.gas_limit).2.2.1

/-- Balance of `tgt` after `set_balance a v` on adapter state `e`, or
`none` when the transfer failed. -/
def balanceAfter (e : Executor) (a tgt : Address) (v : U256) : Option U256 :=
  match e.set_balance a v with
  | .ok e2 => some ((e2.executor.backend.accounts tgt).balance)
  | .error _ => none

end Executor

/-- An account that holds nothing and has done nothing. -/
def zeroAccount : Account := ⟨0, 0, [], fun _ => 0⟩

/-- A small concrete backend used to evaluate the theorems on concrete
inputs: the faucet holds 100 wei, account 5 has nonce 3. -/
def demoBackend : Backend :=
  ⟨fun a =>
    if a = FAUCET_ACCOUNT then ⟨100, 0, [], fun _ => 0⟩
    else if a = 5 then ⟨0, 3, [], fun _ => 0⟩
    else zeroAccount⟩

/-- A concrete engine state over `demoBackend` with an empty log buffer
and 1000000 gas remaining. -/
def demoEngine : EngineState := ⟨demoBackend, [], 1000000⟩

/-- A concrete adapter over `demoEngine` with gas limit 900000. -/
def demoExec : Executor := ⟨demoEngine, 900000⟩

/-- A concrete interpreter oracle: a create succeeds with `Returned`,
bumps the nonce of the caller, emits one log and consumes 50000 gas; a
call succeeds with `Stopped`, returns two bytes, emits one log and
consumes 30000 gas. -/
def demoOracle : TransactOracle :=
  ⟨fun s caller _ _ _ =>
    (.Succeed .Returned,
     s.backend.update caller
       { s.backend.accounts caller with
           nonce := (s.backend.accounts caller).nonce + 1 },
     ["created"], s.gasLeft - 50000),
   fun s _ _ _ _ _ =>
    ((.Succeed .Stopped, [1, 2]), s.backend, ["called"], s.gasLeft - 30000)⟩

/-- The adapter produced by a successful `set_balance 5 40` on
`demoExec` (used to evaluate the conservation theorem concretely). -/
def demoFunded : Executor :=
  match demoExec.set_balance 5 40 with
  | .ok x => x
  | .error _ => demoExec

/-- Closed form of `deploy`: the branch on `is_fail`, the error message,
the success payload (precomputed legacy address, status, narrowed
saturating gas, drained logs) and the post-state with a cleared log
buffer. -/
theorem deploy_eq (o : TransactOracle) (e : Executor) (from_ : Address)
    (cd : Bytes) (v : U256) :
    e.deploy o from_ cd v =
      (if Executor.is_fail (Executor.deployStatus o e from_ cd v) then
        (.error ("deployment reverted, reason: " ++
           reprExit (Executor.deployStatus o e from_ cd v)),
         { e with executor :=
             ⟨(o.createOutcome e.executor from_ v cd e.gas_limit).2.1, [],
              Executor.deployGasAfter o e from_ cd v⟩ })
      else
        (.ok (legacyCreateAddress from_ ((e.executor.backend.accounts from_).nonce),
              Executor.deployStatus o e from_ cd v,
              asU64 ((e.executor.gas_left - Executor.deployGasAfter o e from_ cd v) - 21000),
              e.executor.logs ++ Executor.opEmitted o e (.create from_ cd v)),
         { e with executor :=
             ⟨(o.createOutcome e.executor from_ v cd e.gas_limit).2.1, [],
              Executor.deployGasAfter o e from_ cd v⟩ })) := rfl

/-- Closed form of `call_raw`: always `Ok`, with the engine's return
data and status, the narrowed saturating gas, the drained logs, and
the post-state with a cleared log buffer. -/
theorem call_raw_eq (o : TransactOracle) (e : Executor) (from_ to_ : Address)
    (cd : Bytes) (v : U256) (st : Bool) :
    e.call_raw o from_ to_ cd v st =
      (.ok (Executor.callRetdata o e from_ to_ cd v,
            Executor.callStatus o e from_ to_ cd v,
            asU64 ((e.executor.gas_left - Executor.callGasAfter o e from_ to_ cd v) - 21000),
            e.executor.logs ++ Executor.callEmitted o e from_ to_ cd v),
       { e with executor :=
           ⟨(o.callOutcome e.executor from_ to_ v cd e.gas_limit).2.1, [],
            Executor.callGasAfter o e from_ to_ cd v⟩ }) := rfl

/-- The `as_u64` narrowing of the doubly saturating subtraction is the
clamped-at-zero signed difference once the minuend fits in 64 bits. -/
theorem asU64_sub_sub (a b c : Nat) (h : a < 2 ^ 64) :
    asU64 ((a - b) - c) = Int.toNat ((a : Int) - (b : Int) - (c : Int)) := by
  unfold asU64
  omega

/-- C8: `is_fail` is the boolean complement of `is_success`;
`is_success` holds exactly on the `Succeed` variants; for every status
exactly one of the two predicates holds. -/
theorem is_success_is_fail_complement (r : ExitReason) :
    (Executor.is_fail r = ! Executor.is_success r) ∧
    (Executor.is_success r = true ↔ ∃ s, r = ExitReason.Succeed s) ∧
    ((Executor.is_success r = true ∧ Executor.is_fail r = false) ∨
     (Executor.is_success r = false ∧ Executor.is_fail r = true)) := by
  cases r <;> simp [Executor.is_fail, Executor.is_success]

/-- C10: two `call_raw` runs from the same adapter state that differ
only in the `is_static` flag return the same result and the same final
adapter state: the flag is ignored by this layer. -/
theorem call_raw_static_flag_irrelevant (o : TransactOracle) (e : Executor)
    (from_ to_ : Address) (cd : Bytes) (v : U256) (b1 b2 : Bool) :
    e.call_raw o from_ to_ cd v b1 = e.call_raw o from_ to_ cd v b2 := rfl

/-- C6: `call_raw` always returns `Ok` carrying the (possibly empty)
return data together with the status, the gas used and the logs, for
every exit status the engine reports, a revert or fatal error
included; it never converts a failing status into an error result. -/
theorem call_raw_returns_data_even_on_failure (o : TransactOracle)
    (e : Executor) (from_ to_ : Address) (cd : Bytes) (v : U256) (st : Bool) :
    (e.call_raw o from_ to_ cd v st).1 =
      .ok (Executor.callRetdata o e from_ to_ cd v,
           Executor.callStatus o e from_ to_ cd v,
           asU64 ((e.executor.gas_left - Executor.callGasAfter o e from_ to_ cd v) - 21000),
           e.executor.logs ++ Executor.callEmitted o e from_ to_ cd v) := rfl

/-- C4: when the faucet account holds less than the requested amount,
`set_balance` fails with the fatal transfer error, propagated to the
caller; it is not reported as a revert and no recovery is attempted. -/
theorem set_balance_insufficient_fatal (e : Executor) (a : Address) (v : U256)
    (h : (e.executor.backend.accounts FAUCET_ACCOUNT).balance < v) :
    e.set_balance a v = .error "could not transfer funds" := by
  simp [Executor.set_balance, Backend.transfer, Backend.withdraw, h]

/-- C4 witness: on the demo adapter, whose faucet holds 100, asking for
200 fails with the fatal transfer error. -/
theorem set_balance_insufficient_fatal_witness :
    demoExec.set_balance 5 200 = .error "could not transfer funds" :=
  set_balance_insufficient_fatal demoExec 5 200 (by decide)

/-- C1: every successful `deploy` returns the address derived from the
nonce the sender had before the creation transaction executed, under
the legacy nonce-based derivation scheme (the adapter precomputes it
from the pre-transaction state, whatever the transaction then does to
the nonce). -/
theorem deploy_address_from_pre_nonce (o : TransactOracle) (e : Executor)
    (from_ : Address) (cd : Bytes) (v : U256)
    (r : Address × ExitReason × Nat × List String)
    (h : (e.deploy o from_ cd v).1 = .ok r) :
    r.1 = legacyCreateAddress from_ ((e.executor.backend.accounts from_).nonce) := by
  rw [deploy_eq] at h
  split at h
  · simp at h
  · simp only [Except.ok.injEq] at h
    rw [← h]

/-- C1 witness: the demo oracle increments the nonce of the sender
(account 5 starts at nonce 3) and the successful deploy returns the
address derived from the pre-transaction nonce 3. -/
theorem deploy_address_from_pre_nonce_witness :
    (92233720368547758084 : Nat) = legacyCreateAddress 5 3 :=
  deploy_address_from_pre_nonce demoOracle demoExec 5 [] 0
    (92233720368547758084, .Succeed .Returned, 29000, ["created"]) rfl

/-- C2: whenever `call_raw` returns, and whenever `deploy` returns
successfully, the reported gas_used is exactly the clamped-at-zero
value of gas_before - gas_after - 21000, so it is non-negative for
every input, gas limits below the 21000 intrinsic base cost included.
The hypothesis records that the remaining gas is a 64-bit quantity,
which the engine's 64-bit gasometer guarantees. -/
theorem gas_used_saturating (o : TransactOracle) (e : Executor)
    (hgb : e.executor.gas_left < 2 ^ 64) :
    (∀ (from_ to_ : Address) (cd : Bytes) (v : U256) (st : Bool)
       (r : Bytes × ExitReason × Nat × List String),
       (e.call_raw o from_ to_ cd v st).1 = .ok r →
       r.2.2.1 = Int.toNat ((e.executor.gas_left : Int) -
         (Executor.callGasAfter o e from_ to_ cd v : Int) - 21000)) ∧
    (∀ (from_ : Address) (cd : Bytes) (v : U256)
       (r : Address × ExitReason × Nat × List String),
       (e.deploy o from_ cd v).1 = .ok r →
       r.2.2.1 = Int.toNat ((e.executor.gas_left : Int) -
         (Executor.deployGasAfter o e from_ cd v : Int) - 21000)) := by
  constructor
  · intro from_ to_ cd v st r h
    rw [call_raw_eq] at h
    simp only [Except.ok.injEq] at h
    rw [← h]
    exact asU64_sub_sub _ _ _ hgb
  · intro from_ cd v r h
    rw [deploy_eq] at h
    split at h
    · simp at h
    · simp only [Except.ok.injEq] at h
      rw [← h]
      exact asU64_sub_sub _ _ _ hgb

/-- C2 witness: on the demo adapter (1000000 gas before, 970000 after
the call), the returned gas_used 9000 is the clamped difference. -/
theorem gas_used_saturating_witness :
    (9000 : Nat) = Int.toNat ((demoExec.executor.gas_left : Int) -
      (Executor.callGasAfter demoOracle demoExec 5 5 [] 0 : Int) - 21000) :=
  (gas_used_saturating demoOracle demoExec (by decide)).1 5 5 [] 0 true
    ([1, 2], .Succeed .Stopped, 9000, ["called"]) rfl

/-- C5: `deploy` returns an error exactly when the exit status
classifies as failure; the error message carries the status, and on a
success status it returns `Ok` with the precomputed address, the
status, the gas used and the logs. -/
theorem deploy_error_iff_fail (o : TransactOracle) (e : Executor)
    (from_ : Address) (cd : Bytes) (v : U256) :
    ((∃ msg, (e.deploy o from_ cd v).1 = .error msg) ↔
       Executor.is_fail (Executor.deployStatus o e from_ cd v) = true) ∧
    (Executor.is_fail (Executor.deployStatus o e from_ cd v) = true →
       (e.deploy o from_ cd v).1 =
         .error ("deployment reverted, reason: " ++
           reprExit (Executor.deployStatus o e from_ cd v))) ∧
    (Executor.is_fail (Executor.deployStatus o e from_ cd v) = false →
       (e.deploy o from_ cd v).1 =
         .ok (legacyCreateAddress from_ ((e.executor.backend.accounts from_).nonce),
              Executor.deployStatus o e from_ cd v,
              asU64 ((e.executor.gas_left - Executor.deployGasAfter o e from_ cd v) - 21000),
              e.executor.logs ++ Executor.opEmitted o e (.create from_ cd v))) := by
  by_cases hf : Executor.is_fail (Executor.deployStatus o e from_ cd v) = true <;>
    simp [deploy_eq, hf]

/-- C5 witness: on the demo adapter the create succeeds, so deploy
returns `Ok` with the precomputed address, the status, the gas used
and the logs of the transaction. -/
theorem deploy_error_iff_fail_witness :
    (demoExec.deploy demoOracle 5 [] 0).1 =
      .ok (legacyCreateAddress 5 3, .Succeed .Returned, 29000, ["created"]) :=
  (deploy_error_iff_fail demoOracle demoExec 5 [] 0).2.2 (by decide)

/-- Every adapter operation leaves the engine-global log buffer empty:
both `deploy` (failing or not) and `call_raw` drain it and then clear
it before returning. -/
theorem runOp_clears_buffer (o : TransactOracle) (e : Executor) (op : EvmOp) :
    (Executor.runOp o e op).2.executor.logBuffer = [] := by
  cases op with
  | create f cd v =>
    simp only [Executor.runOp]
    rw [deploy_eq]
    split <;> rfl
  | call f t cd v st =>
    simp only [Executor.runOp]
    rw [call_raw_eq]

/-- From an adapter state whose log buffer is empty, the logs an
operation hands back are among the logs emitted during that very
transaction (a failed deploy hands back none). -/
theorem runOp_logs_from_own_transaction (o : TransactOracle) (e : Executor)
    (op : EvmOp) (hb : e.executor.logBuffer = []) :
    ∀ l, l ∈ (Executor.runOp o e op).1 → l ∈ Executor.opEmitted o e op := by
  cases op with
  | create f cd v =>
    intro l hl
    simp only [Executor.runOp] at hl
    rw [deploy_eq] at hl
    by_cases hfail : Executor.is_fail (Executor.deployStatus o e f cd v) = true
    · rw [if_pos hfail] at hl
      simp at hl
    · rw [if_neg hfail] at hl
      simpa [Executor.opEmitted, EngineState.logs, hb] using hl
  | call f t cd v st =>
    intro l hl
    simp only [Executor.runOp] at hl
    rw [call_raw_eq] at hl
    simpa [Executor.opEmitted, Executor.callEmitted, EngineState.logs, hb] using hl

/-- C3: across two consecutive adapter operations (deploys, failing
ones included, or raw calls), the first operation leaves the engine
log buffer empty, and every log the second operation hands back was
emitted during the second transaction itself — no record drained by
the first invocation leaks into the second. -/
theorem log_isolation (o : TransactOracle) (e : Executor) (op1 op2 : EvmOp) :
    (Executor.runOp o e op1).2.executor.logBuffer = [] ∧
    ∀ l, l ∈ (Executor.runOp o (Executor.runOp o e op1).2 op2).1 →
      l ∈ Executor.opEmitted o (Executor.runOp o e op1).2 op2 :=
  ⟨runOp_clears_buffer o e op1,
   runOp_logs_from_own_transaction o (Executor.runOp o e op1).2 op2
     (runOp_clears_buffer o e op1)⟩

/-- C3 witness: after a first call on the demo adapter the buffer is
empty, and the log the second call returns is one emitted by the
second transaction. -/
theorem log_isolation_witness :
    (Executor.runOp demoOracle demoExec (.call 5 5 [] 0 true)).2.executor.logBuffer = [] ∧
    "called" ∈ Executor.opEmitted demoOracle
      (Executor.runOp demoOracle demoExec (.call 5 5 [] 0 true)).2
      (.call 5 6 [] 0 false) :=
  ⟨(log_isolation demoOracle demoExec (.call 5 5 [] 0 true) (.call 5 6 [] 0 false)).1,
   (log_isolation demoOracle demoExec (.call 5 5 [] 0 true) (.call 5 6 [] 0 false)).2
     "called" (by decide)⟩

/-- C7 counterexample: funding the faucet account itself succeeds (the
demo faucet holds 100, well above the requested 5) yet leaves its
balance at 100 — the transfer is withdraw-then-deposit on the same
account, so the balance neither strictly increases by the amount nor
decreases by it, refuting the claim at the input
(address = FAUCET_ACCOUNT, amount = 5). -/
theorem set_balance_self_transfer_cex :
    Executor.balanceAfter demoExec FAUCET_ACCOUNT FAUCET_ACCOUNT 5 = some 100 ∧
    (demoExec.executor.backend.accounts FAUCET_ACCOUNT).balance = 100 ∧
    ¬ Executor.balanceAfter demoExec FAUCET_ACCOUNT FAUCET_ACCOUNT 5 = some 95 := by
  decide

/-- C7 (amended): for every address other than the faucet account, a
successful `set_balance` increases the balance of that address by
exactly the funded amount (a strict increase whenever the amount is
nonzero) and decreases the balance of the faucet by the same amount,
and the operation fails when the faucet balance is insufficient. -/
theorem set_balance_conservation (e : Executor) (a : Address) (v : U256)
    (hne : a ≠ FAUCET_ACCOUNT) :
    (∀ e2, e.set_balance a v = .ok e2 →
       (e2.executor.backend.accounts a).balance =
         (e.executor.backend.accounts a).balance + v ∧
       (e2.executor.backend.accounts FAUCET_ACCOUNT).balance =
         (e.executor.backend.accounts FAUCET_ACCOUNT).balance - v ∧
       v ≤ (e.executor.backend.accounts FAUCET_ACCOUNT).balance) ∧
    ((e.executor.backend.accounts FAUCET_ACCOUNT).balance < v →
       e.set_balance a v = .error "could not transfer funds") := by
  by_cases hlt : (e.executor.backend.accounts FAUCET_ACCOUNT).balance < v
  · refine ⟨?_, fun _ => set_balance_insufficient_fatal e a v hlt⟩
    intro e2 h
    rw [set_balance_insufficient_fatal e a v hlt] at h
    exact absurd h (by simp)
  · refine ⟨?_, fun h2 => absurd h2 hlt⟩
    intro e2 h
    simp only [Executor.set_balance, Backend.transfer, Backend.withdraw,
      if_neg hlt] at h
    simp only [Except.ok.injEq] at h
    rw [← h]
    refine ⟨?_, ?_, Nat.le_of_not_lt hlt⟩
    · simp [Backend.deposit, Backend.update, hne, Ne.symm hne]
    · simp [Backend.deposit, Backend.update, hne, Ne.symm hne]

/-- C7 witness: funding account 5 with 40 from the demo faucet (which
holds 100) raises the balance of account 5 by 40 and lowers the faucet
balance by 40. -/
theorem set_balance_conservation_witness :
    (demoFunded.executor.backend.accounts 5).balance =
      (demoExec.executor.backend.accounts 5).balance + 40 ∧
    (demoFunded.executor.backend.accounts FAUCET_ACCOUNT).balance =
      (demoExec.executor.backend.accounts FAUCET_ACCOUNT).balance - 40 ∧
    40 ≤ (demoExec.executor.backend.accounts FAUCET_ACCOUNT).balance :=
  (set_balance_conservation demoExec 5 40 (by decide)).1 demoFunded rfl

/-- Seeding code on one account leaves every balance, nonce and storage
slot of every account unchanged. -/
theorem set_code_preserves (b : Backend) (x : Address) (c : Bytes) (a : Address) :
    ((b.set_code x c).accounts a).balance = (b.accounts a).balance ∧
    ((b.set_code x c).accounts a).nonce = (b.accounts a).nonce ∧
    ∀ k, ((b.set_code x c).accounts a).storage k = (b.accounts a).storage k := by
  unfold Backend.set_code Backend.update
  by_cases hx : a = x
  · subst hx
    simp
  · simp [hx]

/-- A fold of code seedings leaves every balance, nonce and storage
slot of every account unchanged. -/
theorem foldl_set_code_preserves (cs : List (Address × Bytes)) (b : Backend)
    (a : Address) :
    (((cs.foldl (fun b p => b.set_code p.1 p.2) b).accounts a).balance =
       (b.accounts a).balance) ∧
    (((cs.foldl (fun b p => b.set_code p.1 p.2) b).accounts a).nonce =
       (b.accounts a).nonce) ∧
    ∀ k, ((cs.foldl (fun b p => b.set_code p.1 p.2) b).accounts a).storage k =
       (b.accounts a).storage k := by
  induction cs generalizing b with
  | nil => exact ⟨rfl, rfl, fun _ => rfl⟩
  | cons p rest ih =>
    simp only [List.foldl_cons]
    obtain ⟨h1, h2, h3⟩ := ih (b.set_code p.1 p.2)
    obtain ⟨g1, g2, g3⟩ := set_code_preserves b p.1 p.2 a
    exact ⟨h1.trans g1, h2.trans g2, fun k => (h3 k).trans (g3 k)⟩

/-- A fold of code seedings leaves the code of every unlisted account
unchanged. -/
theorem foldl_set_code_not_mem (cs : List (Address × Bytes)) (b : Backend)
    (a : Address) (ha : a ∉ cs.map Prod.fst) :
    ((cs.foldl (fun b p => b.set_code p.1 p.2) b).accounts a).code =
      (b.accounts a).code := by
  induction cs generalizing b with
  | nil => rfl
  | cons p rest ih =>
    simp only [List.map_cons, List.mem_cons, not_or] at ha
    simp only [List.foldl_cons]
    rw [ih (b.set_code p.1 p.2) ha.2]
    simp [Backend.set_code, Backend.update, ha.1]

/-- A fold of code seedings over pairwise-distinct addresses sets the
code of each listed account to its listed bytecode. -/
theorem foldl_set_code_mem (cs : List (Address × Bytes)) (b : Backend)
    (p : Address × Bytes) (hp : p ∈ cs) (hnd : (cs.map Prod.fst).Nodup) :
    ((cs.foldl (fun b p => b.set_code p.1 p.2) b).accounts p.1).code = p.2 := by
  induction cs generalizing b with
  | nil => cases hp
  | cons q rest ih =>
    simp only [List.map_cons, List.nodup_cons] at hnd
    simp only [List.foldl_cons]
    rcases List.mem_cons.mp hp with hq | hrest
    · subst hq
      rw [foldl_set_code_not_mem rest (b.set_code p.1 p.2) p.1 hnd.1]
      simp [Backend.set_code, Backend.update]
    · exact ih (b.set_code q.1 q.2) hrest hnd.2

/-- C9: `initialize_contracts` sets the code of each listed account to
its listed bytecode and changes nothing else — no gas is consumed, the
log buffer and the gas limit are untouched, every balance, nonce and
storage slot of every account is unchanged, and the code of every
unlisted account is unchanged. -/
theorem initialize_contracts_seeds_code_only (e : Executor)
    (cs : List (Address × Bytes)) (hnd : (cs.map Prod.fst).Nodup) :
    ((e.initialize_contracts cs).executor.gasLeft = e.executor.gasLeft) ∧
    ((e.initialize_contracts cs).executor.logBuffer = e.executor.logBuffer) ∧
    ((e.initialize_contracts cs).gas_limit = e.gas_limit) ∧
    (∀ a, ((e.initialize_contracts cs).executor.backend.accounts a).nonce =
            (e.executor.backend.accounts a).nonce ∧
          ((e.initialize_contracts cs).executor.backend.accounts a).balance =
            (e.executor.backend.accounts a).balance ∧
          ∀ k, ((e.initialize_contracts cs).executor.backend.accounts a).storage k =
            (e.executor.backend.accounts a).storage k) ∧
    (∀ p ∈ cs, ((e.initialize_contracts cs).executor.backend.accounts p.1).code = p.2) ∧
    (∀ a, a ∉ cs.map Prod.fst →
       ((e.initialize_contracts cs).executor.backend.accounts a).code =
         (e.executor.backend.accounts a).code) := by
  refine ⟨rfl, rfl, rfl, fun a => ?_, fun p hp => ?_, fun a ha => ?_⟩
  · obtain ⟨h1, h2, h3⟩ := foldl_set_code_preserves cs e.executor.backend a
    exact ⟨h2, h1, h3⟩
  · exact foldl_set_code_mem cs e.executor.backend p hp hnd
  · exact foldl_set_code_not_mem cs e.executor.backend a ha

/-- C9 witness: seeding two contracts on the demo adapter stores their
bytecode and leaves the nonce of account 5 (and the remaining gas)
unchanged. -/
theorem initialize_contracts_witness :
    ((demoExec.initialize_contracts [(1, [7]), (2, [8, 9])]).executor.backend.accounts 1).code
      = [7] ∧
    ((demoExec.initialize_contracts [(1, [7]), (2, [8, 9])]).executor.backend.accounts 5).nonce
      = (demoExec.executor.backend.accounts 5).nonce :=
  ⟨(initialize_contracts_seeds_code_only demoExec [(1, [7]), (2, [8, 9])]
      (by decide)).2.2.2.2.1 (1, [7]) (by decide),
   ((initialize_contracts_seeds_code_only demoExec [(1, [7]), (2, [8, 9])]
      (by decide)).2.2.2.1 5).1⟩

end SputnikEvm
